import Mathlib

/-!
Verification of the Attendify live-notification subsystem
(`src/frontend/src/lib/notifications.js` and the variant implementation of
`NotificationsService.connect` in `src/unnamed/part_000`).

JavaScript strings are embedded as `List Char`; a thrown exception is `none`
in an `Option` result; `undefined` string-typed values are `Option (List Char)`.
-/

namespace Attendify

/-- JS string, embedded as a list of characters. -/
abbrev JSStr := List Char

/-- `s.replace(a, b)` for single-character `a`, `b`: JS `String.prototype.replace`
with a string pattern replaces only the first occurrence. -/
def replaceFirst (a b : Char) : JSStr → JSStr
  | [] => []
  | c :: cs => if c = a then b :: cs else c :: replaceFirst a b cs

/-- `s.split(sep)` for a single-character separator: splits at every occurrence,
keeping empty pieces; `"".split(sep)` is `[""]`. -/
def jsplit (sep : Char) : JSStr → List JSStr
  | [] => [[]]
  | c :: cs =>
    match jsplit sep cs with
    | [] => [[]]
    | g :: gs => if c = sep then [] :: g :: gs else (c :: g) :: gs

/-- JS whitespace characters recognised at the front of `parseInt`'s argument
(the subset relevant here). -/
def isJsSpace (c : Char) : Bool :=
  c = ' ' || c = '\t' || c = '\n' || c = '\r'

/-- Longest prefix of decimal digits, as a natural number; `none` when there is
no leading digit. -/
def digitsPrefix : JSStr → Option Nat
  | [] => none
  | c :: cs =>
    if c.isDigit then
      some (go (c.toNat - '0'.toNat) cs)
    else none
where
  go (acc : Nat) : JSStr → Nat
    | [] => acc
    | c :: cs => if c.isDigit then go (acc * 10 + (c.toNat - '0'.toNat)) cs else acc

/-- JS `parseInt(s)` (default radix, decimal inputs): skip leading whitespace,
optional sign, then the longest prefix of decimal digits; `none` models `NaN`.
Hexadecimal `0x` prefixes are not modelled (no call site feeds them). -/
def jsParseInt (s : JSStr) : Option Int :=
  match s.dropWhile isJsSpace with
  | '-' :: rest => (digitsPrefix rest).map (fun n => -(n : Int))
  | '+' :: rest => (digitsPrefix rest).map (fun n => (n : Int))
  | rest => (digitsPrefix rest).map (fun n => (n : Int))

/-- Interpolating a possibly-`undefined` string into a JS template literal. -/
def und : Option JSStr → JSStr
  | none => "undefined".toList
  | some s => s

/-- JS `h >= 12` where `h` may be `NaN` (`none`): comparisons with `NaN` are false. -/
def hGe12 : Option Int → Bool
  | none => false
  | some v => decide (12 ≤ v)

/-- JS `h % 12 || 12` where `h` may be `NaN`: `NaN % 12` is `NaN`, which is falsy,
and `0` (or `-0`) is falsy; JS `%` truncates toward zero like `Int.tmod`. -/
def hMod12Or12 : Option Int → Int
  | none => 12
  | some v => let m := Int.tmod v 12; if m = 0 then 12 else m

/-- Rendering a JS number (an integer here) into a template literal. -/
def intToStr (v : Int) : JSStr := (toString v).toList

/-- `NotificationsService.formatDateTime(ts)` from
`src/frontend/src/lib/notifications.js` lines 50-66. Input `none` models a
missing (`undefined`/`null`) timestamp; result `none` models a thrown
`TypeError` (destructuring `time.split(":")` when `time` is `undefined`). -/
def formatDateTime (ts : Option JSStr) : Option JSStr :=
  match ts with
  | none => some []
  | some s0 =>
    if s0 = [] then some []
    else
      let s := replaceFirst 'T' ' ' s0
      let pieces := jsplit ' ' s
      let date := pieces.headD []
      match pieces[1]? with
      | none => none
      | some time =>
        let parts := jsplit '-' date
        let p0 := parts.headD []
        let yyyy := if p0.length = 2 then parts[2]? else parts[0]?
        let mm := parts[1]?
        let dd := if p0.length = 2 then parts[0]? else parts[2]?
        let tps := jsplit ':' time
        let hh := tps.headD []
        let mins := tps[1]?
        let h := jsParseInt hh
        let suffix := if hGe12 h then "PM".toList else "AM".toList
        let h2 := hMod12Or12 h
        some (und dd ++ "-".toList ++ und mm ++ "-".toList ++ und yyyy ++
              " ".toList ++ intToStr h2 ++ ":".toList ++ und mins ++
              " ".toList ++ suffix)

/-- A notification record as it arrives from the server (fields used by the
subsystem; `timestamp` is `none` when the field is absent). -/
structure RawNotif where
  _id : Nat
  message : JSStr
  timestamp : Option JSStr
  status : JSStr
deriving DecidableEq, Repr

/-- A store record: the raw record spread together with the derived
`formattedTime` field (`{ ...n, formattedTime: ... }`). -/
structure Notification where
  raw : RawNotif
  formattedTime : JSStr
deriving DecidableEq, Repr

/-- One step of `data.map((n) => ({ ...n, formattedTime:
NotificationsService.formatDateTime(n.timestamp) }))`: `none` when
`formatDateTime` throws on this record. -/
def decorate (n : RawNotif) : Option Notification :=
  (formatDateTime n.timestamp).map (fun ft => ⟨n, ft⟩)

/-- The whole `data.map(...)` callback sequence: JS `map` evaluates left to
right and the first throw aborts the entire expression (`none`). -/
def decorateAll : List RawNotif → Option (List Notification)
  | [] => some []
  | n :: rest =>
    match decorate n, decorateAll rest with
    | some d, some ds => some (d :: ds)
    | _, _ => none

/-- Subscriber callbacks are distinguished by identity; we name them by `Nat`. -/
abbrev Subscriber := Nat

/-- `_notifySubscribers()`: every registered callback is invoked, in
registration order, with the current snapshot; the result is the list of
invocations `(callback, snapshot)` it performs. -/
def notifyLog (subs : List Subscriber) (snap : List Notification) :
    List (Subscriber × List Notification) :=
  subs.map (fun cb => (cb, snap))

/-- The comparator `(a, b) => new Date(b.timestamp) - new Date(a.timestamp)`
sorts descending by date value; `dv` is the ambient `new Date(...).getTime()`
valuation of a timestamp. A JS sort is stable (ES2019), modelled by
`List.insertionSort` with the non-strict descending relation. -/
def byTimestampDesc (dv : Option JSStr → Int) (a b : Notification) : Prop :=
  dv b.raw.timestamp ≤ dv a.raw.timestamp

instance (dv : Option JSStr → Int) : DecidableRel (byTimestampDesc dv) :=
  fun a b => inferInstanceAs (Decidable (dv b.raw.timestamp ≤ dv a.raw.timestamp))

/-- A concrete date valuation for ISO-like `YYYY-MM-DD[T ]HH:MM` timestamps,
used to instantiate `dv` on concrete inputs: the digits of the string read as
one number, which is chronologically ordered for this fixed format. -/
def isoDateVal : Option JSStr → Int
  | none => 0
  | some s => ((s.filter Char.isDigit).foldl (fun acc c => acc * 10 + (c.toNat - '0'.toNat)) 0 : Nat)

/-- The network outcome seen by `NotificationsService.fetch`:
`fail` models a rejected request or a `res.json()` failure, `ok data` a parsed
JSON array of records. -/
inductive FetchResponse
  | fail
  | ok (data : List RawNotif)

/-- `NotificationsService.fetch()` (lines 80-94), given the response outcome:
returns the new store contents together with the subscriber invocations it
performs. The assignment and `_notifySubscribers()` sit inside the `try`, so a
throw anywhere (network, parse, or `formatDateTime` inside the `map`) reaches
the `catch`, which only logs. -/
def fetchStep (dv : Option JSStr → Int) (resp : FetchResponse)
    (notifications : List Notification) (subs : List Subscriber) :
    List Notification × List (Subscriber × List Notification) :=
  match resp with
  | .fail => (notifications, [])
  | .ok data =>
    match decorateAll data with
    | none => (notifications, [])
    | some dec =>
      let sorted := dec.insertionSort (byTimestampDesc dv)
      (sorted, notifyLog subs sorted)

/-- The optimistic mutation of `markAsRead(id)`:
`this.notifications.map((n) => n._id === id ? { ...n, status: "read" } : n)`. -/
def markAsReadOpt (id : Nat) (notifications : List Notification) :
    List Notification :=
  notifications.map (fun n =>
    if n.raw._id = id then ⟨{ n.raw with status := "read".toList }, n.formattedTime⟩ else n)

/-- `NotificationsService.markAsRead(id)` (lines 97-111), with `fails` telling
whether the background POST rejects: snapshot `prev`, optimistic mutation,
notify; on failure restore `prev` and notify again. Returns the final store
and the subscriber invocations in order. -/
def markAsRead (id : Nat) (fails : Bool) (notifications : List Notification)
    (subs : List Subscriber) :
    List Notification × List (Subscriber × List Notification) :=
  let prev := notifications
  let next := markAsReadOpt id notifications
  let log1 := notifyLog subs next
  if fails then (prev, log1 ++ notifyLog subs prev) else (next, log1)

/-- `subscribe(callback)` (lines 69-73) registers the callback at the end of
`this.subscribers`. -/
def subscribe (cb : Subscriber) (subs : List Subscriber) : List Subscriber :=
  subs ++ [cb]

/-- The closure returned by `subscribe`:
`this.subscribers = this.subscribers.filter((cb) => cb !== callback)`. -/
def unsubscribe (cb : Subscriber) (subs : List Subscriber) : List Subscriber :=
  subs.filter (fun c => c ≠ cb)

/-! ## Connection manager

The module-level singleton state `ws`, `isConnected`, `wsReconnectTimeout` of
`notifications.js`, together with the browser-owned resources it manipulates:
the set of WebSocket objects ever created (each keeps its handlers until it
fires `close`) and the set of scheduled timers. The caller role is
`Option String`, with `none` for `undefined`. -/

/-- Lifecycle of one WebSocket object: `closing` is a socket on which `close()`
was called but whose `close` event has not fired yet. -/
inductive SockStatus
  | connecting
  | opened
  | closing
  | closed
deriving DecidableEq, Repr

/-- One WebSocket object: its identity, lifecycle status, and the `userRole`
captured by the closures installed as its handlers. -/
structure Socket where
  sid : Nat
  status : SockStatus
  role : Option String
deriving DecidableEq, Repr

/-- The process-wide connection state: the three module-level variables of
`notifications.js`, the sockets and timers owned by the browser, fresh-id
counters, and a count of `this.fetch()` invocations. -/
structure ConnState where
  ws : Option Nat
  isConnected : Bool
  wsReconnectTimeout : Option Nat
  sockets : List Socket
  pendingTimers : List (Nat × Option String)
  nextSocketId : Nat
  nextTimerId : Nat
  fetchCount : Nat
deriving DecidableEq, Repr

/-- `clearTimeout(wsReconnectTimeout)`: cancels the timer the variable points
at, if that timer is still pending; a stale handle is a harmless no-op. -/
def clearCurrentTimer (s : ConnState) : List (Nat × Option String) :=
  match s.wsReconnectTimeout with
  | none => s.pendingTimers
  | some t => s.pendingTimers.filter (fun p => p.1 ≠ t)

/-- `ws = new WebSocket(wsUrl)` together with installing the handlers:
a fresh socket in `connecting` state whose closures capture `role`. -/
def newSocket (role : Option String) (s : ConnState) : ConnState :=
  { s with
    ws := some s.nextSocketId,
    sockets := s.sockets ++ [⟨s.nextSocketId, .connecting, role⟩],
    nextSocketId := s.nextSocketId + 1 }

/-- `NotificationsService.connect(userRole)` from
`src/frontend/src/lib/notifications.js` lines 128-164 (the synchronous body;
the installed handlers are the event transitions below). Note it neither
touches `wsReconnectTimeout` nor calls `this.fetch()`. -/
def connect (userRole : Option String) (s : ConnState) : ConnState :=
  if userRole ≠ some "superadmin" then s
  else if s.ws.isSome ∧ s.isConnected then s
  else newSocket userRole s

/-- `NotificationsService.connect(userRole)` from `src/unnamed/part_000`
lines 23-77: same guards, but fetches immediately when no socket handle
exists, and aborts (fail closed) when the base URL does not parse (`urlOk`). -/
def connectV2 (userRole : Option String) (urlOk : Bool) (s : ConnState) :
    ConnState :=
  if userRole ≠ some "superadmin" then s
  else
    let s1 := if s.ws = none then { s with fetchCount := s.fetchCount + 1 } else s
    if s1.ws.isSome ∧ s1.isConnected then s1
    else if urlOk then newSocket userRole s1 else s1

/-- Update the status of socket `sid`. -/
def setStatus (sid : Nat) (st : SockStatus) (sockets : List Socket) :
    List Socket :=
  sockets.map (fun k => if k.sid = sid then { k with status := st } else k)

/-- The `ws.onopen` handler (lines 138-143) firing for socket `sid`: only a
socket still in `connecting` state can emit `open`. Sets `isConnected`, clears
the timer the `wsReconnectTimeout` variable currently points at (leaving the
variable set), and issues a fetch. -/
def openEv (sid : Nat) (s : ConnState) : Option ConnState :=
  match s.sockets.find? (fun k => k.sid = sid) with
  | none => none
  | some k =>
    if k.status = .connecting then
      some { s with
        sockets := setStatus sid .opened s.sockets,
        isConnected := true,
        pendingTimers := clearCurrentTimer s,
        fetchCount := s.fetchCount + 1 }
    else none

/-- The `ws.onclose` handler (lines 159-163) firing for socket `sid`: any
not-yet-closed socket eventually emits exactly one `close` (failed connect,
dropped connection, or explicit `close()`). Schedules a reconnect timer whose
callback is `() => this.connect(userRole)` and overwrites the
`wsReconnectTimeout` variable without clearing the previous timer. -/
def closeEv (sid : Nat) (s : ConnState) : Option ConnState :=
  match s.sockets.find? (fun k => k.sid = sid) with
  | none => none
  | some k =>
    if k.status ≠ .closed then
      some { s with
        sockets := setStatus sid .closed s.sockets,
        isConnected := false,
        pendingTimers := s.pendingTimers ++ [(s.nextTimerId, k.role)],
        wsReconnectTimeout := some s.nextTimerId,
        nextTimerId := s.nextTimerId + 1 }
    else none

/-- A pending reconnect timer fires: it is removed from the pending set and
its callback `() => this.connect(userRole)` runs. -/
def timerFire (tid : Nat) (s : ConnState) : Option ConnState :=
  match s.pendingTimers.find? (fun p => p.1 = tid) with
  | none => none
  | some p =>
    some (connect p.2
      { s with pendingTimers := s.pendingTimers.filter (fun q => q.1 ≠ tid) })

/-- `ws.close()` as seen by the socket object: a not-yet-closed socket moves to
`closing` (its `close` event is still going to fire); on a closed socket this
is a no-op. -/
def markClosing (sid : Nat) (sockets : List Socket) : List Socket :=
  sockets.map (fun k =>
    if k.sid = sid ∧ k.status ≠ .closed then { k with status := .closing } else k)

/-- `NotificationsService.disconnect()` (lines 166-173): close the socket if
present, null the handle, drop `isConnected`, clear the pending timer. The
`onclose` handler of the closed socket stays installed. -/
def disconnect (s : ConnState) : ConnState :=
  match s.ws with
  | none => s
  | some sid =>
    { s with
      sockets := markClosing sid s.sockets,
      ws := none,
      isConnected := false,
      pendingTimers := clearCurrentTimer s }

/-- The events the single-threaded runtime can interleave: API calls on the
service and browser-delivered socket/timer events. -/
inductive Ev
  | connectCall (role : Option String)
  | openEvent (sid : Nat)
  | closeEvent (sid : Nat)
  | timerFires (tid : Nat)
  | disconnectCall

/-- One event-loop step; `none` when the event is not enabled in this state. -/
def step (s : ConnState) : Ev → Option ConnState
  | .connectCall role => some (connect role s)
  | .openEvent sid => openEv sid s
  | .closeEvent sid => closeEv sid s
  | .timerFires tid => timerFire tid s
  | .disconnectCall => some (disconnect s)

/-- The state at module load: all three variables null/false, no sockets, no
timers. -/
def initState : ConnState := ⟨none, false, none, [], [], 0, 0, 0⟩

/-- Run an event trace from the initial state. -/
def run (es : List Ev) : Option ConnState :=
  es.foldlM step initState

/-- Sockets that are live (created and whose close event has not fired). -/
def liveSockets (s : ConnState) : List Socket :=
  s.sockets.filter (fun k => k.status ≠ .closed)

/-- Example record 1 of spec property P6 (`{id:1,timestamp:"2025-01-01T10:00"}`). -/
def exRaw1 : RawNotif := ⟨1, [], some "2025-01-01T10:00".toList, "unread".toList⟩

/-- Example record 2 of spec property P6 (`{id:2,timestamp:"2025-01-02T09:00"}`). -/
def exRaw2 : RawNotif := ⟨2, [], some "2025-01-02T09:00".toList, "read".toList⟩

/-- Example store record with id 1, unread (spec property P4). -/
def exNotif1 : Notification := ⟨exRaw1, "01-01-2025 10:00 AM".toList⟩

/-- Example store record with id 2, read (spec property P4). -/
def exNotif2 : Notification := ⟨exRaw2, "02-01-2025 9:00 AM".toList⟩

/-- Example server record whose timestamp is date-only (no time component). -/
def exRawBad : RawNotif := ⟨3, [], some "2025-01-01".toList, "unread".toList⟩

/-! ## Helper lemmas -/

theorem replaceFirst_eq_self {a : Char} (b : Char) {l : JSStr} (h : a ∉ l) :
    replaceFirst a b l = l := by
  induction l with
  | nil => rfl
  | cons c cs ih =>
    simp only [List.mem_cons, not_or] at h
    simp [replaceFirst, Ne.symm h.1, ih h.2]

theorem jsplit_eq_single {sep : Char} {l : JSStr} (h : sep ∉ l) :
    jsplit sep l = [l] := by
  induction l with
  | nil => rfl
  | cons c cs ih =>
    simp only [List.mem_cons, not_or] at h
    simp [jsplit, ih h.2, Ne.symm h.1]

theorem decorateAll_mem {data : List RawNotif} {dec : List Notification}
    (h : decorateAll data = some dec) :
    ∀ n ∈ dec, ∃ r ∈ data, decorate r = some n := by
  induction data generalizing dec with
  | nil =>
    simp only [decorateAll, Option.some.injEq] at h
    subst h
    simp
  | cons a as ih =>
    simp only [decorateAll] at h
    cases ha : decorate a with
    | none => rw [ha] at h; cases h
    | some d =>
      cases has : decorateAll as with
      | none => rw [ha, has] at h; cases h
      | some ds =>
        rw [ha, has] at h
        simp only [Option.some.injEq] at h
        subst h
        intro n hn
        rcases List.mem_cons.mp hn with hn | hn
        · exact ⟨a, List.mem_cons_self a as, hn ▸ ha⟩
        · obtain ⟨r, hr, hrn⟩ := ih has n hn
          exact ⟨r, List.mem_cons_of_mem a hr, hrn⟩

theorem decorateAll_eq_none {data : List RawNotif} {n : RawNotif}
    (hmem : n ∈ data) (hn : decorate n = none) : decorateAll data = none := by
  induction data with
  | nil => cases hmem
  | cons a as ih =>
    rcases List.mem_cons.mp hmem with h | h
    · subst h
      simp only [decorateAll, hn]
    · simp only [decorateAll, ih h]
      cases decorate a <;> rfl

theorem notifyLog_map_fst (subs : List Subscriber) (snap : List Notification) :
    (notifyLog subs snap).map Prod.fst = subs := by
  simp only [notifyLog, List.map_map]
  have : (Prod.fst ∘ fun cb : Subscriber => (cb, snap)) = fun cb => cb := by
    funext cb
    rfl
  rw [this, List.map_id']

theorem formatDateTime_no_time {s : JSStr} (hne : s ≠ []) (hsp : ' ' ∉ s)
    (hT : 'T' ∉ s) : formatDateTime (some s) = none := by
  have h1 : replaceFirst 'T' ' ' s = s := replaceFirst_eq_self ' ' hT
  have h2 : jsplit ' ' s = [s] := jsplit_eq_single hsp
  simp [formatDateTime, hne, h1, h2]

theorem formatDateTime_ne_empty {s : JSStr} (hne : s ≠ []) :
    formatDateTime (some s) ≠ some [] := by
  simp only [formatDateTime, if_neg hne]
  cases h1 : (jsplit ' ' (replaceFirst 'T' ' ' s))[1]? with
  | none => simp [h1]
  | some time =>
    simp only [h1]
    intro hcontra
    simp only [Option.some.injEq] at hcontra
    have hPM : ("PM".toList).length = 2 := rfl
    have hAM : ("AM".toList).length = 2 := rfl
    have hlen := congrArg List.length hcontra
    simp [List.length_append, apply_ite List.length, hPM, hAM] at hlen

/-! ## Claim theorems -/

/-- C1: the claimed invariant fails on the code. After `connect`, `open`,
`close` (one reconnect timer pending), a further `connect` call establishes a
new connection (socket 1) without cancelling the pending timer, and when that
socket's close event arrives before the first timer fires, two reconnect
timers are pending at once. Moreover two bare `connect` calls while the first
socket is still connecting create two live sockets. The timer is cleared only
in the `onopen` handler, never at connection establishment. -/
theorem C1_timer_stacking :
    (run [.connectCall (some "superadmin"), .openEvent 0, .closeEvent 0,
          .connectCall (some "superadmin")]).map
        (fun s => (s.pendingTimers.length, s.ws)) = some (1, some 1) ∧
    (run [.connectCall (some "superadmin"), .openEvent 0, .closeEvent 0,
          .connectCall (some "superadmin"), .closeEvent 1]).map
        (fun s => s.pendingTimers.length) = some 2 ∧
    (run [.connectCall (some "superadmin"), .connectCall (some "superadmin")]).map
        (fun s => (liveSockets s).length) = some 2 :=
  ⟨by decide, by decide, by decide⟩

/-- C2: after an explicit `disconnect()`, the close event of the very socket
`disconnect` closed still runs the installed `onclose` handler, which
schedules a reconnect timer; when that timer fires, `connect` runs with a null
socket handle and opens a fresh socket. Automatic reconnection is not
suppressed by the code. -/
theorem C2_reconnect_after_disconnect :
    (run [.connectCall (some "superadmin"), .openEvent 0, .disconnectCall,
          .closeEvent 0]).map
        (fun s => (s.pendingTimers.length, s.ws, s.isConnected)) =
      some (1, none, false) ∧
    (run [.connectCall (some "superadmin"), .openEvent 0, .disconnectCall,
          .closeEvent 0, .timerFires 0]).map
        (fun s => (s.ws, s.sockets.length)) = some (some 1, 2) :=
  ⟨by decide, by decide⟩

/-- C5 counterexample: in the `notifications.js` implementation of `connect`
(lines 128-143), calling `connect("superadmin")` in the initial state — where
no socket handle exists — triggers no fetch at all: the fetch count stays 0
after the call and becomes 1 only once the socket's `open` event fires, so the
fetch is neither immediate nor independent of the socket opening. -/
theorem C5_connect_no_immediate_fetch :
    initState.ws = none ∧
    (connect (some "superadmin") initState).fetchCount = 0 ∧
    (run [.connectCall (some "superadmin")]).map (fun s => s.fetchCount) =
      some 0 ∧
    (run [.connectCall (some "superadmin"), .openEvent 0]).map
      (fun s => s.fetchCount) = some 1 :=
  ⟨rfl, rfl, by decide, by decide⟩

/-- C5 (amended): the two cited implementations diverge. In the
`src/unnamed/part_000` implementation, `connect("superadmin")` while no socket
handle exists issues exactly one immediate fetch, regardless of the rest of
the connection state and independently of any socket `open` event (`urlOk`
covers both the well-formed and the malformed base-URL case). In the
`notifications.js` implementation, the synchronous body of `connect` never
fetches, for any role; there the fetch happens only inside `ws.onopen`. -/
theorem C5_fetch_on_connect_variants (urlOk : Bool) (s : ConnState)
    (h : s.ws = none) :
    (connectV2 (some "superadmin") urlOk s).fetchCount = s.fetchCount + 1 ∧
    (∀ role, (connect role s).fetchCount = s.fetchCount) := by
  constructor
  · cases urlOk <;> simp [connectV2, h, newSocket]
  · intro role
    unfold connect
    split
    · rfl
    · split
      · rfl
      · rfl

/-- Witness for C5 (amended) at the initial state, for both implementations. -/
theorem C5_fetch_on_connect_variants_witness :
    (connectV2 (some "superadmin") true initState).fetchCount =
      initState.fetchCount + 1 ∧
    (connect (some "superadmin") initState).fetchCount =
      initState.fetchCount := by
  have h := C5_fetch_on_connect_variants true initState rfl
  exact ⟨h.1, h.2 (some "superadmin")⟩

/-- C6: for any role other than the string `"superadmin"` (including
`undefined`, i.e. `none`), both implementations of `connect` leave the whole
state untouched — no socket is created, no fetch is issued, nothing is
thrown — and the role guard is the first statement of each body. -/
theorem C6_role_gating (role : Option String) (urlOk : Bool) (s : ConnState)
    (h : role ≠ some "superadmin") :
    connect role s = s ∧ connectV2 role urlOk s = s := by
  constructor
  · simp [connect, h]
  · simp [connectV2, h]

/-- Witness for C6 at `connect(undefined)` and `connect("admin")`. -/
theorem C6_role_gating_witness :
    connect none initState = initState ∧
    connectV2 none true initState = initState ∧
    connect (some "admin") initState = initState :=
  ⟨(C6_role_gating none true initState (by simp)).1,
   (C6_role_gating none true initState (by simp)).2,
   (C6_role_gating (some "admin") true initState (by simp)).1⟩

/-- C8: calling `connect` again while a socket handle exists and the state is
connected is the identity on the whole state in both implementations: no
second socket, no duplicated fetch. -/
theorem C8_idempotent_connect (role : Option String) (urlOk : Bool)
    (s : ConnState) (hws : s.ws.isSome = true) (hc : s.isConnected = true) :
    connect role s = s ∧ connectV2 role urlOk s = s := by
  have hne : s.ws ≠ none := by
    cases hv : s.ws with
    | none => rw [hv] at hws; cases hws
    | some v => simp
  constructor
  · by_cases hr : role = some "superadmin"
    · simp [connect, hr, hws, hc]
    · simp [connect, hr]
  · by_cases hr : role = some "superadmin"
    · simp [connectV2, hr, hws, hc, hne]
    · simp [connectV2, hr]

/-- Witness for C8: a second `connect("superadmin")` in a connected state. -/
theorem C8_idempotent_connect_witness :
    connect (some "superadmin")
        ⟨some 0, true, none, [⟨0, .opened, some "superadmin"⟩], [], 1, 0, 1⟩ =
      ⟨some 0, true, none, [⟨0, .opened, some "superadmin"⟩], [], 1, 0, 1⟩ :=
  (C8_idempotent_connect (some "superadmin") true
    ⟨some 0, true, none, [⟨0, .opened, some "superadmin"⟩], [], 1, 0, 1⟩
    rfl rfl).1

/-- C3: for every store, subscriber list and id present in the store,
`markAsRead(id)` followed by a failing POST restores exactly the pre-mutation
sequence (the full snapshot, all fields), and the invocation log is precisely
one notify-all with the optimistic snapshot followed by one notify-all with
the rolled-back snapshot, so each registered callback is invoked exactly
twice. -/
theorem C3_markAsRead_rollback (store : List Notification)
    (subs : List Subscriber) (id : Nat)
    (hmem : id ∈ store.map (fun n => n.raw._id)) :
    (markAsRead id true store subs).1 = store ∧
    (markAsRead id true store subs).2 =
      notifyLog subs (markAsReadOpt id store) ++ notifyLog subs store ∧
    ∀ cb : Subscriber,
      ((markAsRead id true store subs).2.map Prod.fst).count cb =
        2 * subs.count cb := by
  refine ⟨rfl, rfl, ?_⟩
  intro cb
  show ((notifyLog subs (markAsReadOpt id store) ++
         notifyLog subs store).map Prod.fst).count cb = _
  rw [List.map_append, notifyLog_map_fst, notifyLog_map_fst,
    List.count_append, two_mul]

/-- Witness for C3 on the spec's P4 store `[{id:1,unread},{id:2,read}]`. -/
theorem C3_markAsRead_rollback_witness :
    (markAsRead 1 true [exNotif1, exNotif2] [5]).1 = [exNotif1, exNotif2] ∧
    ((markAsRead 1 true [exNotif1, exNotif2] [5]).2.map Prod.fst).count 5 = 2 := by
  have h := C3_markAsRead_rollback [exNotif1, exNotif2] [5] 1 (by decide)
  exact ⟨h.1, (h.2.2 5).trans (by decide)⟩

/-- C4 counterexample: with record store `[exNotif1]` and subscriber `7`
registered, a failing `fetch()` leaves the store untouched but performs no
subscriber invocation at all, refuting "fetch() always finishes by invoking
every registered subscriber with the current snapshot". -/
theorem C4_no_notify_on_failure :
    (fetchStep isoDateVal .fail [exNotif1] [7]).1 = [exNotif1] ∧
    (7, [exNotif1]) ∉ (fetchStep isoDateVal .fail [exNotif1] [7]).2 :=
  ⟨rfl, by decide⟩

/-- C4 (amended): on a network/parse failure, or a throw while computing
`formattedTime` inside the `map`, the in-memory sequence is left exactly
unchanged and no subscriber is invoked (the notify call sits inside the `try`,
there is no `finally`); only on success is every registered subscriber
invoked, with the new snapshot. -/
theorem C4_fetch_failure_semantics (dv : Option JSStr → Int)
    (store : List Notification) (subs : List Subscriber) :
    fetchStep dv .fail store subs = (store, []) ∧
    (∀ data, decorateAll data = none →
      fetchStep dv (.ok data) store subs = (store, [])) ∧
    (∀ data dec, decorateAll data = some dec →
      (fetchStep dv (.ok data) store subs).2 =
        notifyLog subs (fetchStep dv (.ok data) store subs).1) := by
  refine ⟨rfl, ?_, ?_⟩
  · intro data h
    simp [fetchStep, h]
  · intro data dec h
    simp [fetchStep, h]

/-- Witness for C4 (amended): a failed request and a response holding a
record whose `formattedTime` computation throws both leave store and
subscribers untouched. -/
theorem C4_fetch_failure_semantics_witness :
    fetchStep isoDateVal .fail [exNotif2] [3] = ([exNotif2], []) ∧
    fetchStep isoDateVal (.ok [exRawBad]) [exNotif2] [3] = ([exNotif2], []) :=
  ⟨(C4_fetch_failure_semantics isoDateVal [exNotif2] [3]).1,
   (C4_fetch_failure_semantics isoDateVal [exNotif2] [3]).2.1 [exRawBad]
     (by decide)⟩

/-- C7: when every record decorates successfully, `fetch()` replaces the store
(whatever it held before) with exactly those decorated records, reordered
descending by the date valuation of their timestamps (server order is not
trusted), each carrying `formattedTime` computed from its own timestamp; and on
the spec's P6 response the resulting store orders id 2 before id 1. -/
theorem C7_fetch_sorted_desc (dv : Option JSStr → Int) (data : List RawNotif)
    (dec store : List Notification) (subs : List Subscriber)
    (h : decorateAll data = some dec) :
    ((fetchStep dv (.ok data) store subs).1).Perm dec ∧
    List.Sorted (byTimestampDesc dv) (fetchStep dv (.ok data) store subs).1 ∧
    (∀ n ∈ (fetchStep dv (.ok data) store subs).1,
      ∃ r ∈ data, n.raw = r ∧
        formatDateTime r.timestamp = some n.formattedTime) ∧
    ((fetchStep isoDateVal (.ok [exRaw1, exRaw2]) [] []).1.map
        (fun n => n.raw._id)) = [2, 1] := by
  haveI : IsTotal Notification (byTimestampDesc dv) :=
    ⟨fun a b => le_total (dv b.raw.timestamp) (dv a.raw.timestamp)⟩
  haveI : IsTrans Notification (byTimestampDesc dv) :=
    ⟨fun a b c hab hbc => le_trans hbc hab⟩
  refine ⟨?_, ?_, ?_, by decide⟩
  · simp only [fetchStep, h]
    exact List.perm_insertionSort _ dec
  · simp only [fetchStep, h]
    exact List.sorted_insertionSort _ dec
  · intro n hn
    simp only [fetchStep, h] at hn
    have hmem : n ∈ dec := (List.mem_insertionSort _).mp hn
    obtain ⟨r, hr, hd⟩ := decorateAll_mem h n hmem
    simp only [decorate] at hd
    cases hf : formatDateTime r.timestamp with
    | none => rw [hf] at hd; cases hd
    | some ft =>
      rw [hf] at hd
      simp only [Option.map_some', Option.some.injEq] at hd
      refine ⟨r, hr, ?_, ?_⟩
      · rw [← hd]
      · rw [← hd]
        exact hf

/-- Witness for C7 on the spec's P6 response. -/
theorem C7_fetch_sorted_desc_witness :
    ((fetchStep isoDateVal (.ok [exRaw1, exRaw2]) [] []).1.map
        (fun n => n.raw._id)) = [2, 1] :=
  (C7_fetch_sorted_desc isoDateVal [exRaw1, exRaw2] [exNotif1, exNotif2] [] []
    (by decide)).2.2.2

/-- C9: the unsubscribe closure returned by `subscribe(cb)` removes exactly
the callback identity `cb` (counts of every other identity are untouched), is
idempotent, and after running it no notify-all invokes `cb` while every other
still-registered subscriber is still invoked. -/
theorem C9_unsubscribe_correct (subs : List Subscriber) (cb : Subscriber)
    (snap : List Notification) :
    cb ∉ unsubscribe cb subs ∧
    (∀ d, d ≠ cb → (unsubscribe cb subs).count d = subs.count d) ∧
    unsubscribe cb (unsubscribe cb subs) = unsubscribe cb subs ∧
    (cb, snap) ∉ notifyLog (unsubscribe cb subs) snap ∧
    (∀ d, d ≠ cb → d ∈ subs →
      (d, snap) ∈ notifyLog (unsubscribe cb subs) snap) := by
  refine ⟨?_, ?_, ?_, ?_, ?_⟩
  · simp [unsubscribe]
  · intro d hd
    simp [unsubscribe, List.count_filter, hd]
  · simp [unsubscribe, List.filter_filter]
  · intro hmem
    simp only [notifyLog, List.mem_map] at hmem
    obtain ⟨c, hc, heq⟩ := hmem
    have hcc : c = cb := congrArg Prod.fst heq
    subst hcc
    simp [unsubscribe] at hc
  · intro d hd hdmem
    simp only [notifyLog, List.mem_map]
    exact ⟨d, by simp [unsubscribe, hdmem, hd], rfl⟩

/-- Witness for C9: unsubscribing callback 1 from `[1, 2]`. -/
theorem C9_unsubscribe_correct_witness :
    1 ∉ unsubscribe 1 [1, 2] ∧
    (2, ([] : List Notification)) ∈ notifyLog (unsubscribe 1 [1, 2]) [] := by
  have h := C9_unsubscribe_correct [1, 2] 1 []
  exact ⟨h.1, h.2.2.2.2 2 (by decide) (by decide)⟩

/-- C10: `formatDateTime` returns the empty string exactly on a missing or
empty timestamp; every other timestamp without a space- or `T`-separated time
part makes it throw (`none`), and one such record in a server response makes
the whole `fetch()` resynchronization abort inside its catch block: store
unchanged, nobody notified. -/
theorem C10_formatDateTime_dateOnly_throws :
    formatDateTime none = some [] ∧
    formatDateTime (some []) = some [] ∧
    (∀ s : JSStr, s ≠ [] → formatDateTime (some s) ≠ some []) ∧
    (∀ s : JSStr, s ≠ [] → ' ' ∉ s → 'T' ∉ s →
      formatDateTime (some s) = none) ∧
    (∀ (dv : Option JSStr → Int) (data : List RawNotif)
       (store : List Notification) (subs : List Subscriber) (n : RawNotif)
       (s : JSStr), n ∈ data → n.timestamp = some s → s ≠ [] → ' ' ∉ s →
       'T' ∉ s → fetchStep dv (.ok data) store subs = (store, [])) := by
  refine ⟨rfl, rfl, ?_, ?_, ?_⟩
  · intro s hne
    exact formatDateTime_ne_empty hne
  · intro s hne hsp hT
    exact formatDateTime_no_time hne hsp hT
  · intro dv data store subs n s hmem hts hne hsp hT
    have hfd : formatDateTime n.timestamp = none := by
      rw [hts]
      exact formatDateTime_no_time hne hsp hT
    have hdec : decorate n = none := by simp [decorate, hfd]
    have hall : decorateAll data = none := decorateAll_eq_none hmem hdec
    simp [fetchStep, hall]

/-- Witness for C10: the date-only timestamp `"2025-01-01"` throws, and a
response containing such a record aborts the whole resynchronization. -/
theorem C10_formatDateTime_dateOnly_throws_witness :
    formatDateTime (some "2025-01-01".toList) = none ∧
    fetchStep isoDateVal (.ok [exRaw1, exRawBad]) [exNotif2] [4] =
      ([exNotif2], []) := by
  have h := C10_formatDateTime_dateOnly_throws
  exact ⟨h.2.2.2.1 ("2025-01-01".toList) (by decide) (by decide) (by decide),
    h.2.2.2.2 isoDateVal [exRaw1, exRawBad] [exNotif2] [4] exRawBad
      ("2025-01-01".toList) (by decide) rfl (by decide) (by decide) (by decide)⟩

end Attendify
